import Mathlib

/-
Verification of the SparkPost Django email backend
(sparkpost/django/email_backend.py).

The backend translates a Django `EmailMessage` into the keyword-argument
mapping expected by `client.transmissions.send`, validates unsupported
features first, and reduces the provider response (or exception) back to
the count of accepted recipients.  The remote capability
`transmissions.send` is modelled as an explicit function parameter
`send : Dict → Except Exc SendResult`; every other definition below is a
direct transcription of the Python source.

Python dictionaries are modelled as association lists with unique keys
maintained by construction (`Dict.set` replaces in place, `Dict.update`
folds `set`, `Dict.pop` deletes).  Dictionary values are modelled by
`Val`: the keys the backend inspects (`template`, `html`, `text`) hold
strings; list-valued entries (such as `recipients`) use `Val.list`.
Python truthiness of a value (`sparkpost_cfg.get('template')`) is the
emptiness test `Val.truthy`.

To reason about "before any network call" and "exactly one call per
message", `_send` is defined through `send_traced`, which also returns
the list of parameter mappings actually passed to the remote capability
(empty when validation fails, a singleton when the call is dispatched).
-/

namespace SparkPostBackend

/-- A Python dictionary value: a string, or a list of strings (used for
`recipients` and similar sequence-valued parameters). -/
inductive Val where
  | s (str : String)
  | list (l : List String)
deriving DecidableEq, Repr

/-- Python truthiness of a value: empty strings and empty lists are falsy. -/
def Val.truthy : Val → Bool
  | Val.s str => str ≠ ""
  | Val.list l => l ≠ []

/-- A Python dict with string keys, as an association list with unique keys
maintained by construction. -/
abbrev Dict := List (String × Val)

/-- `d[k]` lookup: the value at the first matching key, if any. -/
def Dict.get? : Dict → String → Option Val
  | [], _ => none
  | (k, v) :: rest, key => if k = key then some v else Dict.get? rest key

/-- Python `key in d`. -/
def Dict.contains (d : Dict) (key : String) : Bool :=
  (Dict.get? d key).isSome

/-- Python `d[k] = v`: replace the value in place if the key is present,
append otherwise. -/
def Dict.set : Dict → String → Val → Dict
  | [], key, v => [(key, v)]
  | (k, w) :: rest, key, v =>
    if k = key then (key, v) :: rest else (k, w) :: Dict.set rest key v

/-- Python `d.pop(k, None)`: remove the entry with the given key. -/
def Dict.pop : Dict → String → Dict
  | [], _ => []
  | (k, w) :: rest, key => if k = key then rest else (k, w) :: Dict.pop rest key

/-- Python `d.update(other)`: set every entry of `other` in `d`, in order. -/
def Dict.update (d : Dict) : Dict → Dict
  | [] => d
  | (k, v) :: rest => Dict.update (Dict.set d k v) rest

/-- One record of a SparkPost API error body (`{message, description, code}`). -/
structure APIErrorRecord where
  message : String
  description : String
  code : String
deriving DecidableEq, Repr

/-- `SparkPostAPIException`: carries the structured list of error records. -/
structure SparkPostAPIException where
  errors : List APIErrorRecord
deriving DecidableEq, Repr

/-- The exceptions that can cross `_send` / `send_messages`:
the four backend-specific exceptions from `sparkpost.django.exceptions`,
the provider exception, and a generic exception (anything else the remote
call may raise, as in the fail-silently tests). -/
inductive Exc where
  | unsupportedParam (msg : String)
  | unsupportedContent (msg : String)
  | invalidInlineTemplate (msg : String)
  | invalidStoredTemplate (cause : SparkPostAPIException)
  | apiException (e : SparkPostAPIException)
  | generic (msg : String)
deriving DecidableEq, Repr

/-- The remote capability response:
`{total_accepted_recipients, total_rejected_recipients}`. -/
structure SendResult where
  total_accepted_recipients : Nat
  total_rejected_recipients : Nat
deriving DecidableEq, Repr

/-- A Django email message, restricted to the fields the backend reads.
`alternatives` is `none` when the attribute is absent (plain
`EmailMessage`, probed with `hasattr`), and `sparkpost` is `none` when the
attribute is absent (probed with `getattr(message, 'sparkpost', None)`). -/
structure EmailMessage where
  «to» : List String
  from_email : String
  subject : String
  body : String
  cc : List String
  bcc : List String
  reply_to : List String
  attachments : List String
  alternatives : Option (List (String × String))
  sparkpost : Option Dict
deriving DecidableEq, Repr

/-- `getattr(message, param, [])` for the three unsupported envelope fields. -/
def getParam (m : EmailMessage) : String → List String
  | "cc" => m.cc
  | "bcc" => m.bcc
  | "reply_to" => m.reply_to
  | _ => []

/-- The list iterated by `check_unsupported`. -/
def unsupported_params : List String := ["cc", "bcc", "reply_to"]

/-- The loop body of `check_unsupported`: raise on the first non-empty field. -/
def check_unsupported_go (m : EmailMessage) : List String → Except Exc Unit
  | [] => Except.ok ()
  | param :: rest =>
    if (getParam m param).length != 0 then
      Except.error (Exc.unsupportedParam
        ("The SparkPost Django email backend does not currently support "
          ++ param ++ "."))
    else check_unsupported_go m rest

/-- `check_unsupported`: `UnsupportedParam` if cc, bcc or reply_to is
non-empty, checked in that order. -/
def check_unsupported (m : EmailMessage) : Except Exc Unit :=
  check_unsupported_go m unsupported_params

/-- `check_attachments`: `UnsupportedContent` if any attachment is present. -/
def check_attachments (m : EmailMessage) : Except Exc Unit :=
  if m.attachments.length != 0 then
    Except.error (Exc.unsupportedContent
      ("The SparkPost Django email backend does not "
        ++ "currently support attachment."))
  else Except.ok ()

/-- `check_inline_template`: `InvalidInlineTemplate` when exactly one of the
`html` / `text` keys is present in the override (`!=` on the two `in`
tests is the xor of the source). -/
def check_inline_template (cfg : Dict) : Except Exc Unit :=
  if Dict.contains cfg "html" != Dict.contains cfg "text" then
    Except.error (Exc.invalidInlineTemplate
      "Both \x27html\x27 and \x27text\x27 must be present in \x27EmailMessage.sparkpost\x27")
  else Except.ok ()

/-- The base parameter dict of `_send`:
`dict(recipients=message.to, from_email=..., subject=..., text=message.body)`. -/
def base_params (m : EmailMessage) : Dict :=
  [("recipients", Val.list m.«to»),
   ("from_email", Val.s m.from_email),
   ("subject", Val.s m.subject),
   ("text", Val.s m.body)]

/-- The `if sparkpost_cfg:` block of `_send`: validate the inline template,
drop the base text body when a stored template is referenced
(`sparkpost_cfg.get('template')` truthy), then merge the override on top. -/
def apply_sparkpost_cfg (params : Dict) (cfg : Dict) : Except Exc Dict :=
  match check_inline_template cfg with
  | Except.error e => Except.error e
  | Except.ok _ =>
    let params :=
      if (match Dict.get? cfg "template" with
          | some v => Val.truthy v
          | none => false) then
        Dict.pop params "text"
      else params
    Except.ok (Dict.update params cfg)

/-- The alternatives loop of `_send`: each `text/html` part assigns the
`html` key (a later part overwrites an earlier one); any part of another
content type raises `UnsupportedContent`. -/
def apply_alternatives : Dict → List (String × String) → Except Exc Dict
  | params, [] => Except.ok params
  | params, (content, ctype) :: rest =>
    if ctype = "text/html" then
      apply_alternatives (Dict.set params "html" (Val.s content)) rest
    else
      Except.error (Exc.unsupportedContent
        ("Content type " ++ ctype ++ " is not supported"))

/-- The override step of `build_params`: run `apply_sparkpost_cfg` when the
`sparkpost` attribute is present and truthy (a non-empty dict). -/
def sparkpost_step (m : EmailMessage) (params : Dict) : Except Exc Dict :=
  match m.sparkpost with
  | some cfg =>
    if cfg.isEmpty then Except.ok params
    else apply_sparkpost_cfg params cfg
  | none => Except.ok params

/-- The alternatives step of `build_params`: run the alternatives loop when
the attribute is present and the list is non-empty. -/
def alternatives_step (m : EmailMessage) (params : Dict) : Except Exc Dict :=
  match m.alternatives with
  | some alts =>
    if alts.length > 0 then apply_alternatives params alts
    else Except.ok params
  | none => Except.ok params

/-- The validation and parameter-construction part of `_send`, up to (but
not including) the remote call. -/
def build_params (m : EmailMessage) : Except Exc Dict :=
  match check_unsupported m with
  | Except.error e => Except.error e
  | Except.ok _ =>
    match check_attachments m with
    | Except.error e => Except.error e
    | Except.ok _ =>
      match sparkpost_step m (base_params m) with
      | Except.error e => Except.error e
      | Except.ok params => alternatives_step m params

/-- The `try: return self.client.transmissions.send(**params) except
SparkPostAPIException` tail of `_send`: a provider error with some record
of code `"1603"` becomes `InvalidStoredTemplate` carrying the original
exception; every other outcome passes through unchanged. -/
def dispatch_send (send : Dict → Except Exc SendResult) (params : Dict) :
    Except Exc SendResult :=
  match send params with
  | Except.ok r => Except.ok r
  | Except.error (Exc.apiException e) =>
    if e.errors.any (fun err => err.code = "1603") then
      Except.error (Exc.invalidStoredTemplate e)
    else Except.error (Exc.apiException e)
  | Except.error e => Except.error e

/-- `_send` instrumented with the list of parameter dicts actually passed
to the remote capability: empty when validation fails, a singleton when
the call is dispatched. -/
def send_traced (send : Dict → Except Exc SendResult) (m : EmailMessage) :
    List Dict × Except Exc SendResult :=
  match build_params m with
  | Except.error e => ([], Except.error e)
  | Except.ok params => ([params], dispatch_send send params)

/-- `_send(message)`: validate, build the parameters, dispatch. -/
def _send (send : Dict → Except Exc SendResult) (m : EmailMessage) :
    Except Exc SendResult :=
  (send_traced send m).2

/-- The loop of `send_messages`, threading the running `success` count and
collecting the trace of remote calls.  On a failure, `fail_silently`
decides between skipping the message and propagating the exception. -/
def send_messages_from (fail_silently : Bool)
    (send : Dict → Except Exc SendResult) :
    List EmailMessage → Nat → List Dict × Except Exc Nat
  | [], success => ([], Except.ok success)
  | m :: rest, success =>
    match send_traced send m with
    | (calls, Except.ok r) =>
      let next := send_messages_from fail_silently send rest
        (success + r.total_accepted_recipients)
      (calls ++ next.1, next.2)
    | (calls, Except.error e) =>
      if fail_silently then
        let next := send_messages_from fail_silently send rest success
        (calls ++ next.1, next.2)
      else (calls, Except.error e)

/-- `send_messages` with its trace of remote calls. -/
def send_messages_traced (fail_silently : Bool)
    (send : Dict → Except Exc SendResult) (msgs : List EmailMessage) :
    List Dict × Except Exc Nat :=
  send_messages_from fail_silently send msgs 0

/-- `send_messages(email_messages)`: the accumulated count of accepted
recipients, or the first exception when `fail_silently` is off. -/
def send_messages (fail_silently : Bool)
    (send : Dict → Except Exc SendResult) (msgs : List EmailMessage) :
    Except Exc Nat :=
  (send_messages_traced fail_silently send msgs).2

/-- Whether an outcome is an `UnsupportedContent` failure. -/
def isUnsupportedContent : Except Exc SendResult → Bool
  | Except.error (Exc.unsupportedContent _) => true
  | _ => false

instance {ε α : Type} [DecidableEq ε] [DecidableEq α] : DecidableEq (Except ε α)
  | Except.ok x, Except.ok y =>
    if h : x = y then Decidable.isTrue (h ▸ rfl)
    else Decidable.isFalse (fun he => h (Except.ok.inj he))
  | Except.ok _, Except.error _ => Decidable.isFalse (fun he => Except.noConfusion he)
  | Except.error _, Except.ok _ => Decidable.isFalse (fun he => Except.noConfusion he)
  | Except.error x, Except.error y =>
    if h : x = y then Decidable.isTrue (h ▸ rfl)
    else Decidable.isFalse (fun he => h (Except.error.inj he))

/-! Concrete fixtures, mirroring the inputs of the test suite
(`test/django/test_email_backend.py`). -/

/-- A minimal plain message (all optional features absent). -/
def wMsg : EmailMessage :=
  { «to» := ["to@example.com"], from_email := "from@example.com",
    subject := "test subject", body := "test body",
    cc := [], bcc := [], reply_to := [], attachments := [],
    alternatives := none, sparkpost := none }

/-- A remote capability that always accepts one recipient. -/
def wOkSend : Dict → Except Exc SendResult := fun _ => Except.ok ⟨1, 0⟩

/-- A remote capability distinguishing messages by subject: subject `s1`
yields 1 accepted recipient, anything else yields 10. -/
def wSumSend : Dict → Except Exc SendResult := fun params =>
  if Dict.get? params "subject" = some (Val.s "s1") then Except.ok ⟨1, 2⟩
  else Except.ok ⟨10, 2⟩

/-- A remote capability that always raises a generic exception. -/
def wFailSend : Dict → Except Exc SendResult := fun _ =>
  Except.error (Exc.generic "i should not be raised")

/-- A remote capability raising a fixed provider exception. -/
def wApiSend (e : SparkPostAPIException) : Dict → Except Exc SendResult :=
  fun _ => Except.error (Exc.apiException e)

/-- The provider exception of `test_template_stored_invalid` (code 1603). -/
def wApi1603 : SparkPostAPIException :=
  ⟨[{ message := "Subresource not found",
      description := "template does not exist", code := "1603" }]⟩

/-- A provider exception whose only record has a different code. -/
def wApiOther : SparkPostAPIException :=
  ⟨[{ message := "Message generation rejected",
      description := "recipient address suppressed", code := "1902" }]⟩

/-- First batch message. -/
def wMsg1 : EmailMessage := { wMsg with subject := "s1" }

/-- Second batch message. -/
def wMsg2 : EmailMessage := { wMsg with subject := "s2" }

/-- A message with an inline alternative and an override supplying both
inline keys. -/
def wMsg3 : EmailMessage :=
  { wMsg with alternatives := some [("ALT", "text/html")],
              sparkpost := some [("html", Val.s "H"), ("text", Val.s "T")] }

/-- A message whose override supplies only `html` (invalid inline template). -/
def wMsg5 : EmailMessage :=
  { wMsg with sparkpost := some [("html", Val.s "H")] }

/-- A message whose override is exactly a stored-template reference. -/
def wMsg6 : EmailMessage :=
  { wMsg with sparkpost := some [("template", Val.s "t")] }

/-- A message with two `text/html` alternatives. -/
def wMsg7 : EmailMessage :=
  { wMsg with alternatives := some [("a", "text/html"), ("b", "text/html")] }

/-- A message with a non-html alternative part. -/
def wMsg7b : EmailMessage :=
  { wMsg with alternatives := some [("non-plain content", "text/alien")] }

/-- A message with both a cc address and an attachment. -/
def wMsgCc : EmailMessage :=
  { wMsg with cc := ["cc1@example.com"], attachments := ["file.txt"] }

/-- A message with one attachment and an empty envelope otherwise. -/
def wMsgAtt : EmailMessage := { wMsg with attachments := ["file.txt"] }

/-- The override of the stored-template-with-inline-content scenario. -/
def wCfg10 : Dict :=
  [("template", Val.s "t"), ("text", Val.s "T"), ("html", Val.s "H")]

/-- A message carrying `wCfg10`. -/
def wMsg10 : EmailMessage := { wMsg with sparkpost := some wCfg10 }

/-- A remote capability failing exactly for the subject `boom`. -/
def wMixedSend : Dict → Except Exc SendResult := fun params =>
  if Dict.get? params "subject" = some (Val.s "boom") then
    Except.error (Exc.generic "i should be raised")
  else Except.ok ⟨1, 0⟩

/-- The message `wMixedSend` fails on. -/
def wMsgBoom : EmailMessage := { wMsg with subject := "boom" }

/-- The parameters built from `wMsg` (the plain message). -/
def wPbase : Dict :=
  [("recipients", Val.list ["to@example.com"]),
   ("from_email", Val.s "from@example.com"),
   ("subject", Val.s "test subject"),
   ("text", Val.s "test body")]

/-- The parameters built from `wMsg3` (inline alternative plus override). -/
def wP3 : Dict :=
  [("recipients", Val.list ["to@example.com"]),
   ("from_email", Val.s "from@example.com"),
   ("subject", Val.s "test subject"),
   ("text", Val.s "T"),
   ("html", Val.s "ALT")]

/-- The parameters built from `wMsg6` (stored-template override only). -/
def wP6 : Dict :=
  [("recipients", Val.list ["to@example.com"]),
   ("from_email", Val.s "from@example.com"),
   ("subject", Val.s "test subject"),
   ("template", Val.s "t")]

/-- The parameters built from `wMsg10` (stored template plus inline keys). -/
def wP10 : Dict :=
  [("recipients", Val.list ["to@example.com"]),
   ("from_email", Val.s "from@example.com"),
   ("subject", Val.s "test subject"),
   ("template", Val.s "t"),
   ("text", Val.s "T"),
   ("html", Val.s "H")]

/-! Lemmas about the dictionary operations. -/

/-- Looking up a key just set returns the value just set. -/
theorem Dict.get?_set_self (d : Dict) (k : String) (v : Val) :
    Dict.get? (Dict.set d k v) k = some v := by
  induction d with
  | nil => simp [Dict.set, Dict.get?]
  | cons hd tl ih =>
    obtain ⟨k0, v0⟩ := hd
    by_cases h : k0 = k
    · subst h; simp [Dict.set, Dict.get?]
    · simp [Dict.set, Dict.get?, h, ih]

/-- Setting one key does not affect lookups of another. -/
theorem Dict.get?_set_ne (d : Dict) (k k2 : String) (v : Val) (h : k ≠ k2) :
    Dict.get? (Dict.set d k v) k2 = Dict.get? d k2 := by
  induction d with
  | nil => simp [Dict.set, Dict.get?, h]
  | cons hd tl ih =>
    obtain ⟨k0, v0⟩ := hd
    by_cases h0 : k0 = k
    · subst h0; simp [Dict.set, Dict.get?, h]
    · by_cases h2 : k0 = k2
      · subst h2; simp [Dict.set, Dict.get?, h0, Ne.symm h]
      · simp [Dict.set, Dict.get?, h0, h2, ih]

/-- Key membership is membership in the list of keys. -/
theorem Dict.contains_iff_mem (l : Dict) (k : String) :
    Dict.contains l k = true ↔ k ∈ l.map Prod.fst := by
  induction l with
  | nil => simp [Dict.contains, Dict.get?]
  | cons hd tl ih =>
    obtain ⟨k0, v0⟩ := hd
    by_cases h : k0 = k
    · subst h; simp [Dict.contains, Dict.get?]
    · simp [Dict.contains, Dict.get?, h, Ne.symm h] at ih ⊢
      exact ih

/-- Updating with a dict that lacks a key does not affect that key. -/
theorem Dict.get?_update_absent (l : Dict) :
    ∀ (d : Dict) (k : String), Dict.contains l k = false →
    Dict.get? (Dict.update d l) k = Dict.get? d k := by
  induction l with
  | nil => intro d k _; rfl
  | cons hd tl ih =>
    intro d k h
    obtain ⟨k0, v0⟩ := hd
    have h0 : k0 ≠ k := by
      intro he; subst he; simp [Dict.contains, Dict.get?] at h
    have h1 : Dict.contains tl k = false := by
      simpa [Dict.contains, Dict.get?, h0] using h
    calc Dict.get? (Dict.update (Dict.set d k0 v0) tl) k
        = Dict.get? (Dict.set d k0 v0) k := ih _ _ h1
      _ = Dict.get? d k := Dict.get?_set_ne _ _ _ _ h0

/-- Updating with a dict with unique keys makes its bindings win. -/
theorem Dict.get?_update_first (l : Dict) :
    ∀ (d : Dict) (k : String) (v : Val), (l.map Prod.fst).Nodup →
    Dict.get? l k = some v →
    Dict.get? (Dict.update d l) k = some v := by
  induction l with
  | nil => intro d k v _ h; simp [Dict.get?] at h
  | cons hd tl ih =>
    intro d k v hnd hget
    obtain ⟨k0, v0⟩ := hd
    rw [List.map_cons, List.nodup_cons] at hnd
    by_cases h0 : k0 = k
    · subst h0
      have hv : v0 = v := by simpa [Dict.get?] using hget
      subst hv
      have hk : Dict.contains tl k0 = false := by
        rcases hc : Dict.contains tl k0 with _ | _
        · rfl
        · exact absurd ((Dict.contains_iff_mem tl k0).mp hc) hnd.1
      calc Dict.get? (Dict.update (Dict.set d k0 v0) tl) k0
          = Dict.get? (Dict.set d k0 v0) k0 := Dict.get?_update_absent _ _ _ hk
        _ = some v0 := Dict.get?_set_self _ _ _
    · have hget2 : Dict.get? tl k = some v := by simpa [Dict.get?, h0] using hget
      exact ih (Dict.set d k0 v0) k v hnd.2 hget2

/-! Lemmas about the alternatives loop. -/

/-- The alternatives loop only ever writes the `html` key. -/
theorem apply_alternatives_get?_ne (alts : List (String × String)) :
    ∀ (d d2 : Dict) (k : String), k ≠ "html" →
    apply_alternatives d alts = Except.ok d2 →
    Dict.get? d2 k = Dict.get? d k := by
  induction alts with
  | nil =>
    intro d d2 k _ h
    simp [apply_alternatives] at h
    subst h; rfl
  | cons hd tl ih =>
    intro d d2 k hk h
    obtain ⟨content, ctype⟩ := hd
    by_cases hc : ctype = "text/html"
    · simp only [apply_alternatives, if_pos hc] at h
      calc Dict.get? d2 k
          = Dict.get? (Dict.set d "html" (Val.s content)) k := ih _ _ _ hk h
        _ = Dict.get? d k := Dict.get?_set_ne _ _ _ _ (Ne.symm hk)
    · simp [apply_alternatives, hc] at h

/-- The alternatives loop raises `UnsupportedContent` as soon as it meets a
part whose content type is not `text/html`. -/
theorem apply_alternatives_err (alts : List (String × String)) :
    ∀ (d : Dict), (∃ a ∈ alts, a.2 ≠ "text/html") →
    ∃ s, apply_alternatives d alts = Except.error (Exc.unsupportedContent s) := by
  induction alts with
  | nil => intro d h; simp at h
  | cons hd tl ih =>
    intro d h
    obtain ⟨content, ctype⟩ := hd
    by_cases hc : ctype = "text/html"
    · subst hc
      obtain ⟨a, ha, hne⟩ := h
      rcases List.mem_cons.mp ha with rfl | hmem
      · exact absurd rfl hne
      · obtain ⟨s, hs⟩ := ih (Dict.set d "html" (Val.s content)) ⟨a, hmem, hne⟩
        exact ⟨s, by simp [apply_alternatives, hs]⟩
    · exact ⟨"Content type " ++ ctype ++ " is not supported",
        by simp [apply_alternatives, hc]⟩

/-- A successful `_send` dispatched exactly one remote call. -/
theorem send_traced_ok_calls (send : Dict → Except Exc SendResult)
    (m : EmailMessage) (r : SendResult) (h : _send send m = Except.ok r) :
    (send_traced send m).1.length = 1 := by
  unfold _send at h
  unfold send_traced at h ⊢
  cases hb : build_params m with
  | error e => rw [hb] at h; simp at h
  | ok params => rfl

/-! Lemmas about the batch loop of `send_messages`. -/

/-- When every message in the batch succeeds, the loop adds every accepted
count to the accumulator and performs one remote call per message. -/
theorem send_messages_from_all_ok (fs : Bool)
    (send : Dict → Except Exc SendResult) :
    ∀ (msgs : List EmailMessage) (rs : List SendResult),
    List.Forall₂ (fun m r => _send send m = Except.ok r) msgs rs →
    ∀ (acc : Nat),
      (send_messages_from fs send msgs acc).2
        = Except.ok (acc + (rs.map SendResult.total_accepted_recipients).sum)
      ∧ (send_messages_from fs send msgs acc).1.length = msgs.length := by
  intro msgs
  induction msgs with
  | nil =>
    intro rs h acc
    cases h
    simp [send_messages_from]
  | cons m ms ih =>
    intro rs h acc
    obtain ⟨r, rs2, h1, h2, rfl⟩ := List.forall₂_cons_left_iff.mp h
    have hcalls := send_traced_ok_calls send m r h1
    cases hst : send_traced send m with
    | mk calls res =>
      have hres : res = Except.ok r := by
        unfold _send at h1; rw [hst] at h1; exact h1
      subst hres
      have hlen : calls.length = 1 := by rw [hst] at hcalls; exact hcalls
      obtain ⟨ih1, ih2⟩ := ih rs2 h2 (acc + r.total_accepted_recipients)
      constructor
      · simp only [send_messages_from, hst]
        rw [ih1, List.map_cons, List.sum_cons, Nat.add_assoc]
      · simp only [send_messages_from, hst, List.length_append, List.length_cons]
        rw [hlen, ih2]
        exact Nat.add_comm 1 ms.length

/-- In fail-silently mode, a message whose `_send` raises contributes
nothing: the batch result is that of the batch without it. -/
theorem send_messages_skip_failed (send : Dict → Except Exc SendResult)
    (m : EmailMessage) (e : Exc) (h : _send send m = Except.error e) :
    ∀ (pre post : List EmailMessage) (acc : Nat),
      (send_messages_from true send (pre ++ m :: post) acc).2
        = (send_messages_from true send (pre ++ post) acc).2 := by
  intro pre
  induction pre with
  | nil =>
    intro post acc
    cases hst : send_traced send m with
    | mk calls res =>
      have hres : res = Except.error e := by
        unfold _send at h; rw [hst] at h; exact h
      subst hres
      simp [send_messages_from, hst]
  | cons p pre2 ih =>
    intro post acc
    cases hst : send_traced send p with
    | mk calls res =>
      cases res with
      | ok r =>
        rw [List.cons_append, List.cons_append]
        simp only [send_messages_from, hst]
        rw [ih post (acc + r.total_accepted_recipients)]
      | error e2 =>
        rw [List.cons_append, List.cons_append]
        simp only [send_messages_from, hst, if_true]
        rw [ih post acc]

/-- Without fail-silently mode, once the messages before `m` all succeed and
`m` raises, the loop stops at `m`: the outcome is `m`'s exception and the
trailing messages contribute no remote calls. -/
theorem send_messages_abort_failed (send : Dict → Except Exc SendResult)
    (m : EmailMessage) (e : Exc) (h : _send send m = Except.error e) :
    ∀ (pre : List EmailMessage) (rs : List SendResult),
      List.Forall₂ (fun m2 r => _send send m2 = Except.ok r) pre rs →
      ∀ (post : List EmailMessage) (acc : Nat),
      send_messages_from false send (pre ++ m :: post) acc
        = ((send_messages_from false send (pre ++ [m]) acc).1,
            Except.error e) := by
  intro pre
  induction pre with
  | nil =>
    intro rs hf post acc
    cases hf
    cases hst : send_traced send m with
    | mk calls res =>
      have hres : res = Except.error e := by
        unfold _send at h; rw [hst] at h; exact h
      subst hres
      simp [send_messages_from, hst]
  | cons p pre2 ih =>
    intro rs hf post acc
    obtain ⟨r, rs2, h1, h2, rfl⟩ := List.forall₂_cons_left_iff.mp hf
    cases hst : send_traced send p with
    | mk calls res =>
      have hres : res = Except.ok r := by
        unfold _send at h1; rw [hst] at h1; exact h1
      subst hres
      rw [List.cons_append, List.cons_append]
      simp only [send_messages_from, hst]
      rw [ih rs2 h2 post (acc + r.total_accepted_recipients)]

/-! Equation lemmas for `build_params` and `alternatives_step`. -/

/-- `build_params` stops at a failing envelope check. -/
theorem build_params_err_unsupported (m : EmailMessage) (e : Exc)
    (h : check_unsupported m = Except.error e) :
    build_params m = Except.error e := by
  unfold build_params; rw [h]

/-- `build_params` stops at a failing attachment check. -/
theorem build_params_err_attachments (m : EmailMessage) (e : Exc)
    (h1 : check_unsupported m = Except.ok ())
    (h : check_attachments m = Except.error e) :
    build_params m = Except.error e := by
  unfold build_params; rw [h1, h]

/-- `build_params` stops at a failing override step. -/
theorem build_params_err_sparkpost (m : EmailMessage) (e : Exc)
    (h1 : check_unsupported m = Except.ok ())
    (h2 : check_attachments m = Except.ok ())
    (h : sparkpost_step m (base_params m) = Except.error e) :
    build_params m = Except.error e := by
  unfold build_params; rw [h1, h2, h]

/-- When every check passes, `build_params` is the alternatives step applied
to the merged parameters. -/
theorem build_params_checks_ok (m : EmailMessage) (params1 : Dict)
    (h1 : check_unsupported m = Except.ok ())
    (h2 : check_attachments m = Except.ok ())
    (h3 : sparkpost_step m (base_params m) = Except.ok params1) :
    build_params m = alternatives_step m params1 := by
  unfold build_params; rw [h1, h2, h3]

/-- The alternatives step is the identity when the attribute is absent. -/
theorem alternatives_step_none (m : EmailMessage) (params : Dict)
    (h : m.alternatives = none) :
    alternatives_step m params = Except.ok params := by
  unfold alternatives_step; rw [h]

/-- The alternatives step runs the loop on a non-empty alternatives list. -/
theorem alternatives_step_some_pos (m : EmailMessage) (params : Dict)
    (alts : List (String × String))
    (h : m.alternatives = some alts) (hl : alts.length > 0) :
    alternatives_step m params = apply_alternatives params alts := by
  unfold alternatives_step; rw [h]; exact if_pos hl

/-- The alternatives step is the identity on an empty alternatives list. -/
theorem alternatives_step_some_zero (m : EmailMessage) (params : Dict)
    (alts : List (String × String))
    (h : m.alternatives = some alts) (hl : ¬alts.length > 0) :
    alternatives_step m params = Except.ok params := by
  unfold alternatives_step; rw [h]; exact if_neg hl

/-- The whole alternatives step only ever writes the `html` key. -/
theorem alternatives_step_get?_ne (m : EmailMessage) (params p : Dict)
    (k : String) (hk : k ≠ "html")
    (h : alternatives_step m params = Except.ok p) :
    Dict.get? p k = Dict.get? params k := by
  cases halt : m.alternatives with
  | none =>
    rw [alternatives_step_none m params halt] at h
    obtain rfl := Except.ok.inj h
    rfl
  | some alts =>
    by_cases hl : alts.length > 0
    · rw [alternatives_step_some_pos m params alts halt hl] at h
      exact apply_alternatives_get?_ne alts params p k hk h
    · rw [alternatives_step_some_zero m params alts halt hl] at h
      obtain rfl := Except.ok.inj h
      rfl

/-- `check_unsupported` fails on a non-empty cc list. -/
theorem check_unsupported_cc (m : EmailMessage) (hcc : m.cc ≠ []) :
    check_unsupported m = Except.error (Exc.unsupportedParam
      "The SparkPost Django email backend does not currently support cc.") := by
  have h0 : (m.cc.length != 0) = true := by
    simp [bne_iff_ne, List.length_eq_zero, hcc]
  simp only [check_unsupported, unsupported_params, check_unsupported_go,
    getParam]
  rw [if_pos h0]
  rfl

/-- `check_unsupported` fails on a non-empty bcc list once cc is empty. -/
theorem check_unsupported_bcc (m : EmailMessage) (hcc : m.cc = [])
    (hbcc : m.bcc ≠ []) :
    check_unsupported m = Except.error (Exc.unsupportedParam
      "The SparkPost Django email backend does not currently support bcc.") := by
  have h0 : (m.bcc.length != 0) = true := by
    simp [bne_iff_ne, List.length_eq_zero, hbcc]
  simp only [check_unsupported, unsupported_params, check_unsupported_go,
    getParam, hcc]
  rw [if_neg (by decide), if_pos h0]
  rfl

/-- `check_unsupported` fails on a non-empty reply_to list once cc and bcc
are empty. -/
theorem check_unsupported_rt (m : EmailMessage) (hcc : m.cc = [])
    (hbcc : m.bcc = []) (hrt : m.reply_to ≠ []) :
    check_unsupported m = Except.error (Exc.unsupportedParam
      "The SparkPost Django email backend does not currently support reply_to.") := by
  have h0 : (m.reply_to.length != 0) = true := by
    simp [bne_iff_ne, List.length_eq_zero, hrt]
  simp only [check_unsupported, unsupported_params, check_unsupported_go,
    getParam, hcc, hbcc]
  rw [if_neg (by decide), if_neg (by decide), if_pos h0]
  rfl

/-- `check_unsupported` passes when cc, bcc and reply_to are all empty. -/
theorem check_unsupported_ok (m : EmailMessage) (hcc : m.cc = [])
    (hbcc : m.bcc = []) (hrt : m.reply_to = []) :
    check_unsupported m = Except.ok () := by
  simp [check_unsupported, unsupported_params, check_unsupported_go,
    getParam, hcc, hbcc, hrt]

/-- `check_attachments` fails on a non-empty attachment list. -/
theorem check_attachments_err (m : EmailMessage) (hatt : m.attachments ≠ []) :
    check_attachments m = Except.error (Exc.unsupportedContent
      "The SparkPost Django email backend does not currently support attachment.") := by
  have h0 : (m.attachments.length != 0) = true := by
    simp [bne_iff_ne, List.length_eq_zero, hatt]
  simp only [check_attachments]
  rw [if_pos h0]
  rfl

/-- A passing inline-template check reduces the override block to the
stored-template drop followed by the merge. -/
theorem apply_sparkpost_cfg_ok (params cfg : Dict)
    (h : check_inline_template cfg = Except.ok ()) :
    apply_sparkpost_cfg params cfg
      = Except.ok (Dict.update
          (if (match Dict.get? cfg "template" with
               | some v => Val.truthy v
               | none => false) then Dict.pop params "text" else params) cfg) := by
  unfold apply_sparkpost_cfg; rw [h]

/-- The override step is the identity when the attribute is absent. -/
theorem sparkpost_step_none (m : EmailMessage) (params : Dict)
    (h : m.sparkpost = none) : sparkpost_step m params = Except.ok params := by
  unfold sparkpost_step; rw [h]

/-- The override step is the identity on an empty (falsy) override dict. -/
theorem sparkpost_step_empty (m : EmailMessage) (params : Dict) (cfg : Dict)
    (h : m.sparkpost = some cfg) (he : cfg.isEmpty = true) :
    sparkpost_step m params = Except.ok params := by
  unfold sparkpost_step; rw [h]; exact if_pos he

/-- The override step runs the override block on a non-empty override. -/
theorem sparkpost_step_cfg (m : EmailMessage) (params : Dict) (cfg : Dict)
    (h : m.sparkpost = some cfg) (he : cfg.isEmpty = false) :
    sparkpost_step m params = apply_sparkpost_cfg params cfg := by
  unfold sparkpost_step; rw [h]; exact if_neg (by simp [he])

/-! The claims. -/

/-- C1: for every batch of messages in which every per-message
translate+dispatch succeeds, `send_messages` invokes the remote send
capability exactly once per message and returns the sum over the batch of
each call's `total_accepted_recipients` count. -/
theorem C1_batch_sums_accepted_counts (fail_silently : Bool)
    (send : Dict → Except Exc SendResult)
    (msgs : List EmailMessage) (rs : List SendResult)
    (h : List.Forall₂ (fun m r => _send send m = Except.ok r) msgs rs) :
    send_messages fail_silently send msgs
      = Except.ok (rs.map SendResult.total_accepted_recipients).sum
    ∧ (send_messages_traced fail_silently send msgs).1.length = msgs.length := by
  obtain ⟨h1, h2⟩ := send_messages_from_all_ok fail_silently send msgs rs h 0
  refine ⟨?_, h2⟩
  unfold send_messages send_messages_traced
  rw [h1, Nat.zero_add]

theorem C1_witness :
    send_messages false wSumSend [wMsg1, wMsg2] = Except.ok 11
    ∧ (send_messages_traced false wSumSend [wMsg1, wMsg2]).1.length = 2 :=
  C1_batch_sums_accepted_counts false wSumSend [wMsg1, wMsg2]
    [⟨1, 2⟩, ⟨10, 2⟩]
    (List.Forall₂.cons rfl (List.Forall₂.cons rfl List.Forall₂.nil))

/-- C2: in fail-silently mode a message whose translate+dispatch raises
contributes zero and the siblings are still processed (the batch result
equals that of the batch without the failing message); with fail-silently
off, once the preceding messages succeed, the failing message's exception
is the result and the trailing messages are never dispatched (the call
trace stops at the failing message). -/
theorem C2_fail_silently_policy (send : Dict → Except Exc SendResult)
    (pre post : List EmailMessage) (m : EmailMessage) (e : Exc)
    (hm : _send send m = Except.error e) :
    (send_messages true send (pre ++ m :: post)
      = send_messages true send (pre ++ post))
    ∧ (∀ rs : List SendResult,
        List.Forall₂ (fun m2 r => _send send m2 = Except.ok r) pre rs →
        send_messages false send (pre ++ m :: post) = Except.error e
        ∧ (send_messages_traced false send (pre ++ m :: post)).1
          = (send_messages_traced false send (pre ++ [m])).1) := by
  constructor
  · exact send_messages_skip_failed send m e hm pre post 0
  · intro rs hf
    have habort := send_messages_abort_failed send m e hm pre rs hf post 0
    constructor
    · show (send_messages_from false send (pre ++ m :: post) 0).2
        = Except.error e
      rw [habort]
    · show (send_messages_from false send (pre ++ m :: post) 0).1
        = (send_messages_from false send (pre ++ [m]) 0).1
      rw [habort]

theorem C2_witness :
    (send_messages true wMixedSend ([wMsg1] ++ wMsgBoom :: [wMsg2])
      = send_messages true wMixedSend ([wMsg1] ++ [wMsg2]))
    ∧ (send_messages false wMixedSend ([wMsg1] ++ wMsgBoom :: [wMsg2])
        = Except.error (Exc.generic "i should be raised")
      ∧ (send_messages_traced false wMixedSend ([wMsg1] ++ wMsgBoom :: [wMsg2])).1
        = (send_messages_traced false wMixedSend ([wMsg1] ++ [wMsgBoom])).1) := by
  have hthm := C2_fail_silently_policy wMixedSend [wMsg1] [wMsg2] wMsgBoom
    (Exc.generic "i should be raised") rfl
  exact ⟨hthm.1, hthm.2 [⟨1, 0⟩] (List.Forall₂.cons rfl List.Forall₂.nil)⟩

/-- C3: for every message carrying exactly one alternative part of html
type and an override that also supplies an `html` key, the parameters
dispatched to the remote capability carry the alternative part's content
under `html`: the alternative assignment runs after the override merge and
clobbers the override-supplied value. -/
theorem C3_alternative_clobbers_override (send : Dict → Except Exc SendResult)
    (m : EmailMessage) (cfg p : Dict) (c : String)
    (halt : m.alternatives = some [(c, "text/html")])
    (hcfg : m.sparkpost = some cfg)
    (hhtml : Dict.contains cfg "html" = true)
    (hp : build_params m = Except.ok p) :
    Dict.get? p "html" = some (Val.s c)
    ∧ (send_traced send m).1 = [p] := by
  refine ⟨?_, by unfold send_traced; rw [hp]⟩
  unfold build_params at hp
  cases h1 : check_unsupported m with
  | error e => rw [h1] at hp; simp at hp
  | ok u =>
    rw [h1] at hp
    cases h2 : check_attachments m with
    | error e => rw [h2] at hp; simp at hp
    | ok u2 =>
      rw [h2] at hp
      cases h3 : sparkpost_step m (base_params m) with
      | error e => rw [h3] at hp; simp at hp
      | ok params1 =>
        rw [h3] at hp
        unfold alternatives_step at hp
        rw [halt] at hp
        simp only [List.length_cons, List.length_nil, Nat.zero_add,
          Nat.lt_irrefl, if_true, Nat.zero_lt_one] at hp
        have hap : apply_alternatives params1 [(c, "text/html")]
            = Except.ok (Dict.set params1 "html" (Val.s c)) := by
          simp [apply_alternatives]
        rw [hap] at hp
        have hpp := Except.ok.inj hp
        subst hpp
        exact Dict.get?_set_self params1 "html" (Val.s c)

theorem C3_witness :
    Dict.get? wP3 "html" = some (Val.s "ALT")
    ∧ (send_traced wOkSend wMsg3).1 = [wP3] :=
  C3_alternative_clobbers_override wOkSend wMsg3
    [("html", Val.s "H"), ("text", Val.s "T")] wP3 "ALT" rfl rfl rfl rfl

/-- C4: when the remote capability raises a provider error whose error
list has a record with code `"1603"`, `_send` fails with
`InvalidStoredTemplate` carrying the original exception; a provider error
with no such record propagates unchanged. -/
theorem C4_stored_template_error_translation
    (send : Dict → Except Exc SendResult) (m : EmailMessage) (p : Dict)
    (e : SparkPostAPIException)
    (hp : build_params m = Except.ok p)
    (hsend : send p = Except.error (Exc.apiException e)) :
    (e.errors.any (fun err => err.code = "1603") = true →
      _send send m = Except.error (Exc.invalidStoredTemplate e))
    ∧ (e.errors.any (fun err => err.code = "1603") = false →
      _send send m = Except.error (Exc.apiException e)) := by
  have hs : _send send m = dispatch_send send p := by
    unfold _send send_traced; rw [hp]
  have hd : dispatch_send send p
      = (if e.errors.any (fun err => err.code = "1603") then
          Except.error (Exc.invalidStoredTemplate e)
        else Except.error (Exc.apiException e)) := by
    unfold dispatch_send; rw [hsend]
  constructor
  · intro hc; rw [hs, hd, if_pos hc]
  · intro hc; rw [hs, hd]; simp [hc]

theorem C4_witness :
    _send (wApiSend wApi1603) wMsg
      = Except.error (Exc.invalidStoredTemplate wApi1603)
    ∧ _send (wApiSend wApiOther) wMsg
      = Except.error (Exc.apiException wApiOther) :=
  ⟨(C4_stored_template_error_translation (wApiSend wApi1603) wMsg wPbase
      wApi1603 rfl rfl).1 rfl,
   (C4_stored_template_error_translation (wApiSend wApiOther) wMsg wPbase
      wApiOther rfl rfl).2 rfl⟩

/-- C5: a present override supplying exactly one of the `html`/`text` keys
makes `_send` fail with `InvalidInlineTemplate` before any remote call
(empty call trace); an override supplying both keys or neither passes the
inline-template validation. -/
theorem C5_inline_template_xor (send : Dict → Except Exc SendResult)
    (m : EmailMessage) (cfg : Dict)
    (hcc : m.cc = []) (hbcc : m.bcc = []) (hrt : m.reply_to = [])
    (hatt : m.attachments = []) (hcfg : m.sparkpost = some cfg) :
    ((Dict.contains cfg "html" != Dict.contains cfg "text") = true →
      send_traced send m = ([], Except.error (Exc.invalidInlineTemplate
        "Both \x27html\x27 and \x27text\x27 must be present in \x27EmailMessage.sparkpost\x27")))
    ∧ ((Dict.contains cfg "html" != Dict.contains cfg "text") = false →
      check_inline_template cfg = Except.ok ()) := by
  have hchk : check_unsupported m = Except.ok () := by
    simp [check_unsupported, unsupported_params, check_unsupported_go,
      getParam, hcc, hbcc, hrt]
  have hatt2 : check_attachments m = Except.ok () := by
    simp [check_attachments, hatt]
  constructor
  · intro hx
    have hne : cfg.isEmpty = false := by
      cases cfg with
      | nil => simp [Dict.contains, Dict.get?] at hx
      | cons a l => rfl
    have hit : check_inline_template cfg
        = Except.error (Exc.invalidInlineTemplate
          "Both \x27html\x27 and \x27text\x27 must be present in \x27EmailMessage.sparkpost\x27") := by
      simp [check_inline_template, hx]
    have hbp : build_params m
        = Except.error (Exc.invalidInlineTemplate
          "Both \x27html\x27 and \x27text\x27 must be present in \x27EmailMessage.sparkpost\x27") := by
      simp [build_params, hchk, hatt2, sparkpost_step, hcfg, hne,
        apply_sparkpost_cfg, hit]
    unfold send_traced
    rw [hbp]
  · intro hx
    simp [check_inline_template, hx]

theorem C5_witness :
    send_traced wOkSend wMsg5 = ([], Except.error (Exc.invalidInlineTemplate
      "Both \x27html\x27 and \x27text\x27 must be present in \x27EmailMessage.sparkpost\x27"))
    ∧ check_inline_template [("html", Val.s "H"), ("text", Val.s "T")]
      = Except.ok () :=
  ⟨(C5_inline_template_xor wOkSend wMsg5 [("html", Val.s "H")]
      rfl rfl rfl rfl rfl).1 rfl,
   (C5_inline_template_xor wOkSend
      { wMsg with sparkpost := some [("html", Val.s "H"), ("text", Val.s "T")] }
      [("html", Val.s "H"), ("text", Val.s "T")] rfl rfl rfl rfl rfl).2 rfl⟩

/-- C6: when the override is exactly the stored-template reference
`{template: "t"}`, the parameters passed to the remote capability have no
`text` key: the base text body is dropped. -/
theorem C6_stored_template_drops_text (m : EmailMessage) (p : Dict)
    (hcfg : m.sparkpost = some [("template", Val.s "t")])
    (hp : build_params m = Except.ok p) :
    Dict.contains p "text" = false := by
  cases h1 : check_unsupported m with
  | error e =>
    rw [build_params_err_unsupported m e h1] at hp
    exact Except.noConfusion hp
  | ok u =>
    cases u
    cases h2 : check_attachments m with
    | error e =>
      rw [build_params_err_attachments m e h1 h2] at hp
      exact Except.noConfusion hp
    | ok u2 =>
      cases u2
      have h3 : sparkpost_step m (base_params m)
          = Except.ok [("recipients", Val.list m.«to»),
              ("from_email", Val.s m.from_email),
              ("subject", Val.s m.subject),
              ("template", Val.s "t")] := by
        unfold sparkpost_step
        rw [hcfg]
        rfl
      rw [build_params_checks_ok m _ h1 h2 h3] at hp
      have hkeep := alternatives_step_get?_ne m _ p "text" (by decide) hp
      unfold Dict.contains
      rw [hkeep]
      rfl

theorem C6_witness : Dict.contains wP6 "text" = false :=
  C6_stored_template_drops_text wMsg6 wP6 rfl rfl

/-- C7 as stated is false on the code: a message declaring two alternative
parts, both of html type, does not fail with `UnsupportedContent` — the
loop assigns the `html` key once per part (last wins) and the message is
dispatched successfully. -/
theorem C7_counterexample :
    _send wOkSend wMsg7 = Except.ok ⟨1, 0⟩
    ∧ isUnsupportedContent (_send wOkSend wMsg7) = false :=
  ⟨rfl, rfl⟩

/-- C7 (amended): for every message passing the envelope, attachment and
inline-template checks that declares some alternative part whose
content-type tag is not the html type, `_send` fails with
`UnsupportedContent` before any network call (empty call trace).
Multiple parts all of html type are accepted. -/
theorem C7_nonhtml_alternative_rejected (send : Dict → Except Exc SendResult)
    (m : EmailMessage) (alts : List (String × String))
    (hcc : m.cc = []) (hbcc : m.bcc = []) (hrt : m.reply_to = [])
    (hatt : m.attachments = [])
    (hcfgok : ∀ cfg, m.sparkpost = some cfg →
      check_inline_template cfg = Except.ok ())
    (halt : m.alternatives = some alts)
    (hbad : ∃ a ∈ alts, a.2 ≠ "text/html") :
    ∃ s, send_traced send m
      = ([], Except.error (Exc.unsupportedContent s)) := by
  have hchk := check_unsupported_ok m hcc hbcc hrt
  have hatt2 : check_attachments m = Except.ok () := by
    simp [check_attachments, hatt]
  have hsp : ∃ params1, sparkpost_step m (base_params m)
      = Except.ok params1 := by
    cases hs : m.sparkpost with
    | none => exact ⟨base_params m, sparkpost_step_none m _ hs⟩
    | some cfg =>
      cases he : cfg.isEmpty with
      | true => exact ⟨base_params m, sparkpost_step_empty m _ cfg hs he⟩
      | false =>
        exact ⟨Dict.update
            (if (match Dict.get? cfg "template" with
                 | some v => Val.truthy v
                 | none => false) then
              Dict.pop (base_params m) "text"
            else base_params m) cfg,
          by rw [sparkpost_step_cfg m _ cfg hs he,
            apply_sparkpost_cfg_ok _ _ (hcfgok cfg hs)]⟩
  obtain ⟨params1, hsp⟩ := hsp
  have hlen : alts.length > 0 := by
    obtain ⟨a, ha, _⟩ := hbad
    exact List.length_pos.mpr (List.ne_nil_of_mem ha)
  obtain ⟨s, hserr⟩ := apply_alternatives_err alts params1 hbad
  refine ⟨s, ?_⟩
  have hbp : build_params m = Except.error (Exc.unsupportedContent s) := by
    rw [build_params_checks_ok m params1 hchk hatt2 hsp,
      alternatives_step_some_pos m params1 alts halt hlen, hserr]
  unfold send_traced
  rw [hbp]

theorem C7_witness :
    isUnsupportedContent (_send wOkSend wMsg7b) = true
    ∧ (send_traced wOkSend wMsg7b).1 = [] := by
  obtain ⟨s, hs⟩ := C7_nonhtml_alternative_rejected wOkSend wMsg7b
    [("non-plain content", "text/alien")] rfl rfl rfl rfl
    (fun cfg hc => Option.noConfusion hc) rfl
    ⟨("non-plain content", "text/alien"), by simp, by decide⟩
  constructor
  · unfold _send
    rw [hs]
    rfl
  · rw [hs]

/-- C8: a non-empty cc, bcc or reply-to list makes `_send` fail with
`UnsupportedParam` before any dispatch; the three are checked
independently in the order cc, bcc, reply_to, and the check runs before
the attachment check (the first conjunct makes no assumption on the
attachments, so a message with both cc addresses and attachments fails
with `UnsupportedParam`, not `UnsupportedContent`). -/
theorem C8_unsupported_param_priority (send : Dict → Except Exc SendResult)
    (m : EmailMessage) :
    (m.cc ≠ [] → send_traced send m
      = ([], Except.error (Exc.unsupportedParam
        "The SparkPost Django email backend does not currently support cc.")))
    ∧ (m.cc = [] → m.bcc ≠ [] → send_traced send m
      = ([], Except.error (Exc.unsupportedParam
        "The SparkPost Django email backend does not currently support bcc.")))
    ∧ (m.cc = [] → m.bcc = [] → m.reply_to ≠ [] → send_traced send m
      = ([], Except.error (Exc.unsupportedParam
        "The SparkPost Django email backend does not currently support reply_to."))) := by
  refine ⟨fun hcc => ?_, fun hcc hbcc => ?_, fun hcc hbcc hrt => ?_⟩
  · unfold send_traced
    rw [build_params_err_unsupported m _ (check_unsupported_cc m hcc)]
  · unfold send_traced
    rw [build_params_err_unsupported m _ (check_unsupported_bcc m hcc hbcc)]
  · unfold send_traced
    rw [build_params_err_unsupported m _
      (check_unsupported_rt m hcc hbcc hrt)]

theorem C8_witness :
    send_traced wOkSend wMsgCc = ([], Except.error (Exc.unsupportedParam
      "The SparkPost Django email backend does not currently support cc.")) :=
  (C8_unsupported_param_priority wOkSend wMsgCc).1 (by decide)

/-- C9: a message with at least one attachment (and empty cc, bcc and
reply-to lists) makes `_send` fail with `UnsupportedContent` before any
network call (empty call trace). -/
theorem C9_attachments_rejected (send : Dict → Except Exc SendResult)
    (m : EmailMessage)
    (hcc : m.cc = []) (hbcc : m.bcc = []) (hrt : m.reply_to = [])
    (hatt : m.attachments ≠ []) :
    send_traced send m = ([], Except.error (Exc.unsupportedContent
      "The SparkPost Django email backend does not currently support attachment.")) := by
  unfold send_traced
  rw [build_params_err_attachments m _
    (check_unsupported_ok m hcc hbcc hrt) (check_attachments_err m hatt)]

theorem C9_witness :
    send_traced wOkSend wMsgAtt = ([], Except.error (Exc.unsupportedContent
      "The SparkPost Django email backend does not currently support attachment.")) :=
  C9_attachments_rejected wOkSend wMsgAtt rfl rfl rfl (by decide)

/-- C10: when the override carries a truthy stored-template key together
with `text` and `html` keys, the dispatched parameters do carry a `text`
key, bound to the override's own text value: the stored-template drop
removes only the base text body, and the subsequent merge re-adds the
override's `text`. -/
theorem C10_override_text_survives (m : EmailMessage) (cfg p : Dict)
    (tv textv : Val)
    (hnodup : (cfg.map Prod.fst).Nodup)
    (hcfg : m.sparkpost = some cfg)
    (htm : Dict.get? cfg "template" = some tv) (htv : tv.truthy = true)
    (htext : Dict.get? cfg "text" = some textv)
    (hhtml : Dict.contains cfg "html" = true)
    (hp : build_params m = Except.ok p) :
    Dict.get? p "text" = some textv := by
  cases h1 : check_unsupported m with
  | error e =>
    rw [build_params_err_unsupported m e h1] at hp
    exact Except.noConfusion hp
  | ok u =>
    cases u
    cases h2 : check_attachments m with
    | error e =>
      rw [build_params_err_attachments m e h1 h2] at hp
      exact Except.noConfusion hp
    | ok u2 =>
      cases u2
      have hne : cfg.isEmpty = false := by
        cases cfg with
        | nil => simp [Dict.get?] at htm
        | cons a l => rfl
      have htextc : Dict.contains cfg "text" = true := by
        simp [Dict.contains, htext]
      have hci : check_inline_template cfg = Except.ok () := by
        simp [check_inline_template, hhtml, htextc]
      have hcond : (match Dict.get? cfg "template" with
          | some v => Val.truthy v
          | none => false) = true := by
        rw [htm]
        exact htv
      have hsp : sparkpost_step m (base_params m)
          = Except.ok (Dict.update (Dict.pop (base_params m) "text") cfg) := by
        rw [sparkpost_step_cfg m _ cfg hcfg hne,
          apply_sparkpost_cfg_ok _ _ hci, if_pos hcond]
      rw [build_params_checks_ok m _ h1 h2 hsp] at hp
      have hkeep := alternatives_step_get?_ne m _ p "text" (by decide) hp
      rw [hkeep]
      exact Dict.get?_update_first cfg _ "text" textv hnodup htext

theorem C10_witness : Dict.get? wP10 "text" = some (Val.s "T") :=
  C10_override_text_survives wMsg10 wCfg10 wP10 (Val.s "t") (Val.s "T")
    (by decide) rfl rfl rfl rfl rfl rfl

end SparkPostBackend
